import Mathlib

/-!
Verification of the gift-bot (src/bot.py): a shallow embedding of the
attribution parser, the user ledger (Postgres `users` table modelled as a
list of rows), the membership check, the gift workflow, the stats
aggregator and the startup path, with theorems settling the spec claims.

Python strings are modelled as `List Char`; SQL `NULL`-able columns as
`Option`; timestamps as `Nat`; Telegram user ids (BIGINT) as `Int`.
-/

namespace GiftBot

/-- SQL COALESCE on two arguments: the first value when non-NULL, else the
second. -/
def coalesce {α : Type} (a b : Option α) : Option α :=
  match a with
  | some v => some v
  | none => b

/-- Python `x or dflt` for `x : str | None`: `None` and the empty string are
falsy, any other string is returned verbatim. -/
def pyOrStr (a : Option (List Char)) (dflt : List Char) : List Char :=
  match a with
  | some v => if v = [] then dflt else v
  | none => dflt

/-- Python `s.split(sep)` for a one-character separator: splits into chunks,
keeping empty chunks (splitting the empty string yields one empty chunk). -/
def splitOnChar (sep : Char) : List Char → List (List Char)
  | [] => [[]]
  | c :: cs =>
    if c = sep then [] :: splitOnChar sep cs
    else
      match splitOnChar sep cs with
      | [] => [[c]]
      | h :: t => (c :: h) :: t

/-- Python `s.split(sep, 1)` viewed as an optional split at the first
occurrence of `sep`: `none` when `sep` does not occur. -/
def splitFirst (sep : Char) : List Char → Option (List Char × List Char)
  | [] => none
  | c :: cs =>
    if c = sep then some ([], cs)
    else (splitFirst sep cs).map (fun p => (c :: p.1, p.2))

/-- Value of a hexadecimal digit character. -/
def hexVal (c : Char) : Nat :=
  if '0' ≤ c ∧ c ≤ '9' then c.toNat - '0'.toNat
  else if 'a' ≤ c ∧ c ≤ 'f' then c.toNat - 'a'.toNat + 10
  else c.toNat - 'A'.toNat + 10

/-- Recognizer for hexadecimal digit characters. -/
def isHexDig (c : Char) : Bool :=
  ('0' ≤ c ∧ c ≤ '9') ∨ ('a' ≤ c ∧ c ≤ 'f') ∨ ('A' ≤ c ∧ c ≤ 'F')

/-- Modelled from the library interface of `urllib.parse.unquote`:
`%XY` with two hex digits decodes to the character with that code (bytewise;
multi-byte UTF-8 escapes are decoded byte by byte), a `%` not followed by two
hex digits stays literal. -/
def percentDecode : List Char → List Char
  | [] => []
  | [c] => [c]
  | [c, d] => [c, d]
  | c :: a :: b :: rest =>
    if c = '%' && isHexDig a && isHexDig b then
      Char.ofNat (16 * hexVal a + hexVal b) :: percentDecode rest
    else
      c :: percentDecode (a :: b :: rest)

/-- Modelled from the library interface of `urllib.parse.unquote_plus`:
`+` becomes a space, then percent-escapes are decoded. -/
def unquotePlus (s : List Char) : List Char :=
  percentDecode (s.map (fun c => if c = '+' then ' ' else c))

/-- Modelled from the library interface of `urllib.parse.parse_qsl` with the
default options (separator `&`, blank values dropped, non-strict): empty
chunks are skipped, chunks without `=` are skipped, chunks with an empty
value are skipped, and names and values are unquoted. -/
def parseQsl (qs : List Char) : List (List Char × List Char) :=
  (splitOnChar '&' qs).foldr
    (fun chunk acc =>
      if chunk = [] then acc
      else
        match splitFirst '=' chunk with
        | none => acc
        | some (n, v) =>
          if v = [] then acc
          else (unquotePlus n, unquotePlus v) :: acc)
    []

/-- `parse_qs(qs).get(key, [None])[0]`: the first value listed for `key`, or
`None` when the key is absent. -/
def firstValue (key : List Char) (pairs : List (List Char × List Char)) :
    Option (List Char) :=
  (pairs.find? (fun p => p.1 == key)).map Prod.snd

/-- A parsed attribution tuple
`(traffic_source, utm_source, utm_medium, utm_campaign)`. -/
abbrev Attribution :=
  Option (List Char) × Option (List Char) × Option (List Char) ×
    Option (List Char)

/-- Embedding of `parse_traffic_from_args` (src/bot.py:83-113). `args` is the
`/start` argument list; only its first element is inspected. -/
def parse_traffic_from_args (args : List (List Char)) : Attribution :=
  match args with
  | [] => (none, none, none, none)
  | payload :: _ =>
    if payload.take 4 = ("utm:").data then
      let parsed := parseQsl (payload.drop 4)
      let utm_source := firstValue ("utm_source").data parsed
      let utm_medium := firstValue ("utm_medium").data parsed
      let utm_campaign := firstValue ("utm_campaign").data parsed
      let traffic_source := pyOrStr utm_source ("utm").data
      (some traffic_source, utm_source, utm_medium, utm_campaign)
    else
      (some payload, none, none, none)

/-- A Telegram user as seen by the handlers (`update.effective_user`). -/
structure TgUser where
  id : Int
  username : Option (List Char)
  first_name : Option (List Char)
  last_name : Option (List Char)
deriving DecidableEq, Repr

/-- One row of the `users` table (src/bot.py:62-74). -/
structure UserRow where
  user_id : Int
  username : Option (List Char)
  first_name : Option (List Char)
  last_name : Option (List Char)
  is_gift_given : Bool
  traffic_source : Option (List Char)
  utm_source : Option (List Char)
  utm_medium : Option (List Char)
  utm_campaign : Option (List Char)
  created_at : Nat
  updated_at : Nat
deriving DecidableEq, Repr

/-- The `users` table: a list of rows (the primary key keeps `user_id`
unique; `upsert_user` preserves that shape). -/
abbrev DB := List UserRow

/-- Row lookup by primary key (`WHERE user_id = %s`). -/
def findRow (uid : Int) (db : DB) : Option UserRow :=
  db.find? (fun r => r.user_id == uid)

/-- The ON CONFLICT update of `upsert_user` applied to one row: display-name
fields and `updated_at` unconditionally, attribution fields by
`COALESCE(EXCLUDED.x, users.x)`; `is_gift_given` and `created_at` untouched.
Rows of other users are returned unchanged. -/
def upsertConflictUpdate (u : TgUser) (traffic_source utm_source utm_medium
    utm_campaign : Option (List Char)) (now : Nat) (r : UserRow) : UserRow :=
  if r.user_id == u.id then
    { r with
      username := u.username
      first_name := u.first_name
      last_name := u.last_name
      updated_at := now
      traffic_source := coalesce traffic_source r.traffic_source
      utm_source := coalesce utm_source r.utm_source
      utm_medium := coalesce utm_medium r.utm_medium
      utm_campaign := coalesce utm_campaign r.utm_campaign }
  else r

/-- Embedding of `upsert_user` (src/bot.py:117-178): `INSERT ... ON CONFLICT
(user_id) DO UPDATE`. A `None` user is a no-op; an insert stores
`is_gift_given = FALSE` and `created_at = updated_at = now`. -/
def upsert_user (user : Option TgUser) (traffic_source utm_source utm_medium
    utm_campaign : Option (List Char)) (now : Nat) (db : DB) : DB :=
  match user with
  | none => db
  | some u =>
    if db.any (fun r => r.user_id == u.id) then
      db.map (upsertConflictUpdate u traffic_source utm_source utm_medium
        utm_campaign now)
    else
      db ++ [{ user_id := u.id
               username := u.username
               first_name := u.first_name
               last_name := u.last_name
               is_gift_given := false
               traffic_source := traffic_source
               utm_source := utm_source
               utm_medium := utm_medium
               utm_campaign := utm_campaign
               created_at := now
               updated_at := now }]

/-- Embedding of `has_gift` (src/bot.py:181-201): `False` when no row
exists, else the row's `is_gift_given`. -/
def has_gift (uid : Int) (db : DB) : Bool :=
  match findRow uid db with
  | none => false
  | some r => r.is_gift_given

/-- Embedding of `mark_gift_given` (src/bot.py:204-225): `UPDATE users SET
is_gift_given = TRUE, updated_at = %s WHERE user_id = %s` (a no-op on rows of
other users, and on an empty match set). -/
def mark_gift_given (uid : Int) (now : Nat) (db : DB) : DB :=
  db.map (fun r =>
    if r.user_id == uid then { r with is_gift_given := true, updated_at := now }
    else r)

/-- One row of the per-source breakdown: `(src, total, gifted)`. -/
abbrev SrcRow := List Char × Nat × Nat

/-- The ordering of `ORDER BY total DESC`: group totals descending. -/
def srcGE (a b : SrcRow) : Prop := b.2.1 ≤ a.2.1

instance : DecidableRel srcGE := fun a b => Nat.decLe b.2.1 a.2.1

instance : IsTotal SrcRow srcGE := ⟨fun a b => Nat.le_total b.2.1 a.2.1⟩

instance : IsTrans SrcRow srcGE :=
  ⟨fun _ _ _ hab hbc => Nat.le_trans hbc hab⟩

/-- `COALESCE(traffic_source, 'unknown')`. -/
def srcKey (r : UserRow) : List Char :=
  r.traffic_source.getD ("unknown").data

/-- Result record of `get_stats`. -/
structure Stats where
  total_users : Nat
  gifted_users : Nat
  sources : List SrcRow
deriving DecidableEq, Repr

/-- Embedding of `get_stats` (src/bot.py:229-269): total user count, gifted
count, and the per-source rows `GROUP BY COALESCE(traffic_source,'unknown')`
with `COUNT(*)` and `SUM(CASE WHEN is_gift_given THEN 1 ELSE 0 END)`,
`ORDER BY total DESC LIMIT 10` (SQL leaves the order of equal totals
unspecified; the model uses a stable insertion sort over the groups in first-
appearance order). -/
def get_stats (db : DB) : Stats :=
  let keys := (db.map srcKey).dedup
  let rows := keys.map (fun k =>
    (k, db.countP (fun r => srcKey r == k),
        db.countP (fun r => srcKey r == k && r.is_gift_given)))
  { total_users := db.length
    gifted_users := db.countP (fun r => r.is_gift_given)
    sources := (List.insertionSort srcGE rows).take 10 }

/-- Outcome of the external `get_chat_member` query: either a member-status
string, or a raised exception (transport failure, timeout, bad chat, ...). -/
inductive ChatQuery where
  | ok (status : List Char)
  | exc (msg : List Char)
deriving DecidableEq, Repr

/-- Embedding of `check_subscription` (src/bot.py:273-289): `status in
("member", "administrator", "creator")`; any exception from the query is
caught, logged and collapsed to `False`. The function is total: it never
propagates an error. -/
def check_subscription (q : ChatQuery) : Bool :=
  match q with
  | .ok status =>
    status == ("member").data || status == ("administrator").data ||
      status == ("creator").data
  | .exc _ => false

/-- Observable actions of the gift flow, in program order. -/
inductive Event where
  | alreadyNotice
  | deliverGift
  | markGiven
deriving DecidableEq, Repr

/-- Embedding of `process_gift_flow` (src/bot.py:293-309). `sendOk` says
whether the outbound `send_gift` message returns without raising. The result
is the trace of actions, the ledger afterwards, and whether the handler
completed without an exception: when `send_gift` raises, `mark_gift_given`
is never reached and the exception propagates. -/
def process_gift_flow (uid : Int) (now : Nat) (sendOk : Bool) (db : DB) :
    List Event × DB × Bool :=
  if has_gift uid db then
    ([.alreadyNotice], db, true)
  else
    if sendOk then
      ([.deliverGift, .markGiven], mark_gift_given uid now db, true)
    else
      ([.deliverGift], db, false)

/-- Reply of the `/stats` handler: a denial message or the report text built
from `get_stats`. -/
inductive StatsReply where
  | denied
  | report (s : Stats)
deriving DecidableEq, Repr

/-- Embedding of the `stats` handler's authorization and report path
(src/bot.py:449-464): `if not user or (ADMIN_IDS and user.id not in
ADMIN_IDS)` sends the denial; otherwise `get_stats` is called and the report
is sent. An empty `ADMIN_IDS` set is falsy in Python, so the membership test
is skipped entirely. -/
def stats_handler (user : Option TgUser) (admin_ids : List Int) (db : DB) :
    StatsReply :=
  match user with
  | none => .denied
  | some u =>
    if admin_ids ≠ [] ∧ u.id ∉ admin_ids then .denied
    else .report (get_stats db)

/-- A ledger mutation, as issued by the handlers. -/
inductive LedgerOp where
  | upsert (user : Option TgUser) (traffic_source utm_source utm_medium
      utm_campaign : Option (List Char)) (now : Nat)
  | mark (uid : Int) (now : Nat)

/-- Apply one ledger mutation. -/
def applyOp (db : DB) : LedgerOp → DB
  | .upsert user ts us um uc now => upsert_user user ts us um uc now db
  | .mark uid now => mark_gift_given uid now db

/-- Apply a sequence of ledger mutations, oldest first. -/
def applyOps (db : DB) (ops : List LedgerOp) : DB :=
  ops.foldl applyOp db

/-- A Python exception as surfaced by the startup path. -/
inductive PyError where
  | runtimeError (msg : List Char)
  | nameError (name : List Char)
deriving DecidableEq, Repr

/-- The names bound at module scope of src/bot.py when `init_db` runs: the
bindings introduced by the `from ... import ...` and plain module
statements (lines 1-19), the module-level assignments, and the top-level
function definitions. The `from psycopg_pool` statement binds only
`ConnectionPool`; nothing binds `pool`. -/
def moduleNames : List (List Char) :=
  [("logging").data, ("os").data, ("datetime").data, ("parse_qs").data,
   ("psycopg").data, ("ConnectionPool").data, ("Update").data,
   ("InlineKeyboardMarkup").data, ("InlineKeyboardButton").data,
   ("ApplicationBuilder").data, ("CommandHandler").data,
   ("ContextTypes").data, ("CallbackQueryHandler").data, ("logger").data,
   ("TELEGRAM_TOKEN").data, ("CHANNEL_USERNAME").data,
   ("DATABASE_URL").data, ("_raw_admin_ids").data, ("ADMIN_IDS").data,
   ("DB_POOL").data, ("init_db").data, ("parse_traffic_from_args").data,
   ("upsert_user").data, ("has_gift").data, ("mark_gift_given").data,
   ("get_stats").data, ("check_subscription").data,
   ("process_gift_flow").data, ("send_gift").data, ("start").data,
   ("button_handler").data, ("gift").data, ("stats").data, ("main").data]

/-- Python name resolution at module scope: a name not bound there raises
`NameError`. -/
def evalName (n : List Char) : Except PyError Unit :=
  if n ∈ moduleNames then .ok () else .error (.nameError n)

/-- Embedding of `init_db` (src/bot.py:45-54): missing `DATABASE_URL` raises
`RuntimeError`; otherwise the line `DB_POOL = pool.SimpleConnectionPool(1, 5,
DATABASE_URL)` first resolves the name `pool`. Pool construction and the
`CREATE TABLE` statement are external I/O, modelled as succeeding when
reached. -/
def init_db (database_url : Option (List Char)) : Except PyError Unit :=
  match database_url with
  | none => .error (.runtimeError ("DATABASE_URL env var is not set").data)
  | some _ => do
    let _ ← evalName ("pool").data
    .ok ()

/-- Embedding of `main` (src/bot.py:490-504): the token check, then
`init_db()`; handler registration and polling are external I/O, modelled as
succeeding when reached. -/
def main (telegram_token : List Char) (database_url : Option (List Char)) :
    Except PyError Unit :=
  if telegram_token = [] ∨ telegram_token.take 1 = ['<'] then
    .error (.runtimeError
      ("Zadaj TELEGRAM_BOT_TOKEN v peremennyh okruzheniya").data)
  else do
    let _ ← init_db database_url
    .ok ()

/-- The attribution columns of a user's row, when the row exists. -/
def attributionOf (uid : Int) (db : DB) :
    Option (Option (List Char) × Option (List Char) × Option (List Char) ×
      Option (List Char)) :=
  (findRow uid db).map (fun r =>
    (r.traffic_source, r.utm_source, r.utm_medium, r.utm_campaign))

/-- Fixture: a user for concrete instantiations. -/
def wUser1 : TgUser :=
  { id := 1, username := none, first_name := none, last_name := none }

/-- Fixture: a second user, same identity as `wUser1`. -/
def wUser2 : TgUser :=
  { id := 1, username := some ("w2").data, first_name := none,
    last_name := none }

/-- Fixture: a row with a chosen id, reward flag and source. -/
def wRow (uid : Int) (flag : Bool) (src : Option (List Char)) : UserRow :=
  { user_id := uid, username := none, first_name := none, last_name := none
    is_gift_given := flag, traffic_source := src, utm_source := none
    utm_medium := none, utm_campaign := none, created_at := 0
    updated_at := 0 }

/-- Fixture: a row of user 1 whose four attribution fields all hold "a". -/
def wRowA : UserRow :=
  { user_id := 1, username := none, first_name := none, last_name := none
    is_gift_given := false, traffic_source := some ("a").data
    utm_source := some ("a").data, utm_medium := some ("a").data
    utm_campaign := some ("a").data, created_at := 0, updated_at := 0 }

section Theorems

theorem upsertConflictUpdate_user_id (u : TgUser)
    (ts us um uc : Option (List Char)) (now : Nat) (r : UserRow) :
    (upsertConflictUpdate u ts us um uc now r).user_id = r.user_id := by
  unfold upsertConflictUpdate
  split <;> rfl

theorem upsertConflictUpdate_flag (u : TgUser)
    (ts us um uc : Option (List Char)) (now : Nat) (r : UserRow) :
    (upsertConflictUpdate u ts us um uc now r).is_gift_given =
      r.is_gift_given := by
  unfold upsertConflictUpdate
  split <;> rfl

theorem findRow_map_conflict (u : TgUser) (ts us um uc : Option (List Char))
    (now : Nat) (uid : Int) (db : DB) :
    findRow uid (db.map (upsertConflictUpdate u ts us um uc now)) =
      (findRow uid db).map (upsertConflictUpdate u ts us um uc now) := by
  unfold findRow
  rw [List.find?_map]
  have hp : ((fun r : UserRow => r.user_id == uid) ∘
      upsertConflictUpdate u ts us um uc now) =
      (fun r : UserRow => r.user_id == uid) := by
    funext r
    simp [Function.comp, upsertConflictUpdate_user_id]
  rw [hp]

theorem has_gift_map (f : UserRow → UserRow)
    (hid : ∀ r, (f r).user_id = r.user_id)
    (hflag : ∀ r, r.is_gift_given = true → (f r).is_gift_given = true)
    (uid : Int) (db : DB) (h : has_gift uid db = true) :
    has_gift uid (db.map f) = true := by
  unfold has_gift findRow at h ⊢
  rw [List.find?_map]
  have hp : ((fun r => r.user_id == uid) ∘ f) =
      (fun r : UserRow => r.user_id == uid) := by
    funext r
    simp [Function.comp, hid]
  rw [hp]
  cases hf : List.find? (fun r => r.user_id == uid) db with
  | none =>
    rw [hf] at h
    exact Bool.noConfusion h
  | some r =>
    rw [hf] at h
    show (f r).is_gift_given = true
    exact hflag r h

theorem has_gift_applyOp (uid : Int) (db : DB) (op : LedgerOp)
    (h : has_gift uid db = true) : has_gift uid (applyOp db op) = true := by
  cases op with
  | upsert user ts us um uc now =>
    cases user with
    | none => simpa [applyOp, upsert_user] using h
    | some u =>
      simp only [applyOp, upsert_user]
      split
      · exact has_gift_map _ (fun r => upsertConflictUpdate_user_id u ts us um uc now r)
          (fun r hr => by rw [upsertConflictUpdate_flag]; exact hr) uid db h
      · unfold has_gift findRow at h ⊢
        rw [List.find?_append]
        cases hf : List.find? (fun r => r.user_id == uid) db with
        | none =>
          rw [hf] at h
          exact Bool.noConfusion h
        | some r =>
          rw [hf] at h
          exact h
  | mark mid now =>
    refine has_gift_map _ (fun r => ?_) (fun r hr => ?_) uid db h
    · dsimp only
      split <;> rfl
    · dsimp only
      split <;> simp [hr]

/-- C1. The reward flag is monotonic: an upsert hitting an existing record
leaves every row's `is_gift_given` unchanged, `mark_gift_given` maps each
row's flag to true exactly on the targeted user and leaves the rest
unchanged, and consequently once `has_gift` returns true for a user it
returns true after any further sequence of ledger operations. -/
theorem reward_flag_monotonic (uid : Int) (db : DB) :
    (∀ (u : TgUser) (ts us um uc : Option (List Char)) (now : Nat),
      db.any (fun r => r.user_id == u.id) = true →
      (upsert_user (some u) ts us um uc now db).map
          (fun r => r.is_gift_given) =
        db.map (fun r => r.is_gift_given)) ∧
    (∀ now : Nat,
      (mark_gift_given uid now db).map (fun r => r.is_gift_given) =
        db.map (fun r =>
          if r.user_id == uid then true else r.is_gift_given)) ∧
    (∀ ops : List LedgerOp, has_gift uid db = true →
      has_gift uid (applyOps db ops) = true) := by
  refine ⟨?_, ?_, ?_⟩
  · intro u ts us um uc now hany
    simp only [upsert_user, if_pos hany, List.map_map]
    refine List.map_congr_left (fun r _ => ?_)
    exact upsertConflictUpdate_flag u ts us um uc now r
  · intro now
    simp only [mark_gift_given, List.map_map]
    refine List.map_congr_left (fun r _ => ?_)
    dsimp only [Function.comp]
    split <;> rfl
  · intro ops h
    induction ops generalizing db with
    | nil => exact h
    | cons op rest ih => exact ih (applyOp db op) (has_gift_applyOp uid db op h)

/-- Witness for C1 at a concrete ledger and operation sequence. -/
theorem reward_flag_monotonic_witness :
    has_gift 1 (applyOps [wRow 1 true none]
      [LedgerOp.upsert (some wUser2) (some ("x").data) none none none 5,
       LedgerOp.mark 2 6]) = true :=
  (reward_flag_monotonic 1 [wRow 1 true none]).2.2
    [LedgerOp.upsert (some wUser2) (some ("x").data) none none none 5,
     LedgerOp.mark 2 6] (by decide)

/-- C10. `mark_gift_given` is idempotent: a second call produces exactly the
state of a single call (with the later timestamp), and after a call every
row of the targeted user has `is_gift_given = true`; the operation is total,
so it never errors. -/
theorem mark_gift_given_idempotent (uid : Int) (db : DB) (n1 n2 : Nat) :
    mark_gift_given uid n2 (mark_gift_given uid n1 db) =
      mark_gift_given uid n2 db ∧
    ((mark_gift_given uid n1 db).all
      (fun r => !(r.user_id == uid) || r.is_gift_given)) = true := by
  constructor
  · simp only [mark_gift_given, List.map_map]
    refine List.map_congr_left (fun r _ => ?_)
    dsimp only [Function.comp]
    by_cases h : r.user_id = uid
    · simp [h]
    · simp [h]
  · rw [List.all_eq_true]
    intro x hx
    simp only [mark_gift_given, List.mem_map] at hx
    obtain ⟨r, _, rfl⟩ := hx
    by_cases h : r.user_id = uid
    · simp [h]
    · simp [h]

/-- C3. In the grant branch (`has_gift` false) delivery comes first: with a
successful delivery the trace is delivery then mark and the ledger is the
marked one; when delivery raises, the trace contains only the delivery
attempt, the handler propagates the exception, the ledger is unchanged and
the user's reward flag is still false. -/
theorem deliver_before_mark (uid : Int) (now : Nat) (db : DB)
    (h : has_gift uid db = false) :
    process_gift_flow uid now true db =
      ([Event.deliverGift, Event.markGiven], mark_gift_given uid now db,
        true) ∧
    process_gift_flow uid now false db = ([Event.deliverGift], db, false) ∧
    has_gift uid (process_gift_flow uid now false db).2.1 = false := by
  refine ⟨?_, ?_, ?_⟩ <;> simp [process_gift_flow, h]

/-- Witness for C3 at a concrete ledger. -/
theorem deliver_before_mark_witness :
    process_gift_flow 1 7 false [wRow 1 false none] =
      ([Event.deliverGift], [wRow 1 false none], false) :=
  (deliver_before_mark 1 7 [wRow 1 false none] (by decide)).2.1

/-- C4. Already-rewarded branch: when `has_gift` is true the workflow emits
exactly the already-rewarded notice, makes no delivery call, does not call
`mark_gift_given`, and leaves the ledger unchanged, for either delivery
outcome. -/
theorem already_rewarded_no_delivery (uid : Int) (now : Nat) (sendOk : Bool)
    (db : DB) (h : has_gift uid db = true) :
    process_gift_flow uid now sendOk db = ([Event.alreadyNotice], db, true) := by
  simp [process_gift_flow, h]

/-- Witness for C4 at a concrete ledger. -/
theorem already_rewarded_no_delivery_witness :
    process_gift_flow 1 7 true [wRow 1 true none] =
      ([Event.alreadyNotice], [wRow 1 true none], true) :=
  already_rewarded_no_delivery 1 7 true [wRow 1 true none] (by decide)

/-- C2 counterexample: attribution is not first-touch. Upserting user 1
with attribution A (all fields "a") and then B (all fields "b"), both
non-null and different, stores B, not A. -/
theorem first_touch_counterexample :
    attributionOf 1
        (upsert_user (some wUser1) (some ("b").data) (some ("b").data)
          (some ("b").data) (some ("b").data) 1
          (upsert_user (some wUser1) (some ("a").data) (some ("a").data)
            (some ("a").data) (some ("a").data) 0 [])) =
      some (some ("b").data, some ("b").data, some ("b").data,
        some ("b").data) ∧
    decide (attributionOf 1
        (upsert_user (some wUser1) (some ("b").data) (some ("b").data)
          (some ("b").data) (some ("b").data) 1
          (upsert_user (some wUser1) (some ("a").data) (some ("a").data)
            (some ("a").data) (some ("a").data) 0 [])) =
      some (some ("a").data, some ("a").data, some ("a").data,
        some ("a").data)) = false := by
  exact ⟨by decide, by decide⟩

/-- C2 amended: attribution is last-non-null-wins. For a user whose row
exists, an upsert carrying non-null attribution values overwrites all four
stored fields with the incoming ones (`COALESCE(EXCLUDED.x, users.x)`
prefers the incoming value), while an upsert carrying null attribution
leaves the stored fields unchanged (so attribution is never cleared). -/
theorem attribution_last_write (u : TgUser) (db : DB) (r : UserRow)
    (hfind : findRow u.id db = some r) (b1 b2 b3 b4 : List Char) (n : Nat) :
    attributionOf u.id
        (upsert_user (some u) (some b1) (some b2) (some b3) (some b4) n db) =
      some (some b1, some b2, some b3, some b4) ∧
    attributionOf u.id (upsert_user (some u) none none none none n db) =
      some (r.traffic_source, r.utm_source, r.utm_medium, r.utm_campaign) := by
  have hfind' : List.find? (fun x => x.user_id == u.id) db = some r := hfind
  have hru : (r.user_id == u.id) = true := by
    simpa using List.find?_some hfind'
  have hany : db.any (fun x => x.user_id == u.id) = true := by
    rw [List.any_eq_true]
    exact ⟨r, List.mem_of_find?_eq_some hfind', hru⟩
  have hgen : ∀ ts us um uc : Option (List Char),
      attributionOf u.id (upsert_user (some u) ts us um uc n db) =
        some (coalesce ts r.traffic_source, coalesce us r.utm_source,
          coalesce um r.utm_medium, coalesce uc r.utm_campaign) := by
    intro ts us um uc
    unfold attributionOf
    simp only [upsert_user, hany, if_true]
    rw [findRow_map_conflict]
    unfold findRow
    rw [hfind']
    simp [upsertConflictUpdate, hru]
  exact ⟨hgen (some b1) (some b2) (some b3) (some b4), hgen none none none none⟩

/-- Witness for the amended C2 at a concrete ledger. -/
theorem attribution_last_write_witness :
    attributionOf 1
        (upsert_user (some wUser1) (some ("b").data) (some ("b").data)
          (some ("b").data) (some ("b").data) 3 [wRowA]) =
      some (some ("b").data, some ("b").data, some ("b").data,
        some ("b").data) :=
  (attribution_last_write wUser1 [wRowA] wRowA (by decide) ("b").data
    ("b").data ("b").data ("b").data 3).1

/-- C6 counterexample: with an empty configured allow-list the guard
`ADMIN_IDS and user.id not in ADMIN_IDS` is skipped (an empty set is falsy
in Python), so a caller outside the allow-list receives the report. -/
theorem stats_allowlist_counterexample :
    stats_handler (some wUser1) [] [] = StatsReply.report (get_stats []) ∧
    decide (wUser1.id ∈ ([] : List Int)) = false := by
  exact ⟨by decide, by decide⟩

/-- C6 amended: when the configured allow-list is non-empty, the report is
produced exactly for callers whose id is in it; every other caller (and a
request with no user) receives the denial message, and no report — hence no
`get_stats` result — is sent to them. With an empty allow-list the check is
bypassed and every caller receives the report. -/
theorem stats_allowlist_gate (u : TgUser) (admin_ids : List Int) (db : DB)
    (hne : admin_ids ≠ []) :
    (u.id ∈ admin_ids →
      stats_handler (some u) admin_ids db = StatsReply.report (get_stats db)) ∧
    (u.id ∉ admin_ids → stats_handler (some u) admin_ids db = StatsReply.denied) ∧
    stats_handler none admin_ids db = StatsReply.denied := by
  refine ⟨fun hmem => ?_, fun hnm => ?_, rfl⟩
  · simp [stats_handler, hne, hmem]
  · simp [stats_handler, hne, hnm]

/-- Witness for the amended C6 at a concrete allow-list. -/
theorem stats_allowlist_gate_witness :
    stats_handler (some (TgUser.mk 5 none none none)) [5] [] =
      StatsReply.report (get_stats []) :=
  (stats_allowlist_gate (TgUser.mk 5 none none none) [5] []
    (by decide)).1 (by decide)

/-- C5. The module never binds the name `pool` (only `ConnectionPool` comes
from psycopg_pool), so whenever `DATABASE_URL` is set, `init_db` hits a
`NameError` on `pool.SimpleConnectionPool` before any pool is created, and
`main` never completes startup even with all configuration present. -/
theorem init_db_pool_name_error :
    decide (("pool").data ∈ moduleNames) = false ∧
    (∀ url : List Char,
      init_db (some url) = Except.error (PyError.nameError ("pool").data)) ∧
    (∀ tok url : List Char, ∃ e : PyError,
      main tok (some url) = Except.error e) := by
  have hpool : evalName ("pool").data =
      Except.error (PyError.nameError ("pool").data) := by
    have h : ("pool").data ∉ moduleNames := by decide
    simp [evalName, h]
  have hinit : ∀ url : List Char,
      init_db (some url) = Except.error (PyError.nameError ("pool").data) := by
    intro url
    unfold init_db
    rw [hpool]
    rfl
  refine ⟨by decide, hinit, fun tok url => ?_⟩
  by_cases hc : tok = [] ∨ tok.take 1 = ['<']
  · refine ⟨PyError.runtimeError
      ("Zadaj TELEGRAM_BOT_TOKEN v peremennyh okruzheniya").data, ?_⟩
    rw [main, if_pos hc]
  · refine ⟨PyError.nameError ("pool").data, ?_⟩
    rw [main, if_neg hc, hinit url]
    rfl

/-- C8. The membership verifier is total (it returns a boolean rather than
propagating any exception) and returns true exactly when the external query
succeeded with status member, administrator or creator; every other status
and every raised exception yields false. -/
theorem check_subscription_fail_closed (q : ChatQuery) :
    check_subscription q = true ↔
      q = ChatQuery.ok ("member").data ∨
      q = ChatQuery.ok ("administrator").data ∨
      q = ChatQuery.ok ("creator").data := by
  cases q with
  | ok s => simp [check_subscription, or_assoc]
  | exc m => simp [check_subscription]

/-- C7. For every payload with the `utm:` marker, the parser reads the
remainder as &-joined key=value pairs: each utm field is the first value of
its recognized key (`None` when absent) and `traffic_source` is `utm_source`
when present, else the literal "utm". The spec's scenario payload yields
("insta", "insta", "story", "launch1"), and malformed pairs (no `=`, empty
value) and unrecognized keys are ignored without failing. -/
theorem parse_utm_branch :
    (∀ qs : List Char,
      parse_traffic_from_args [("utm:").data ++ qs] =
        (some (pyOrStr (firstValue ("utm_source").data (parseQsl qs))
            (("utm").data)),
          firstValue ("utm_source").data (parseQsl qs),
          firstValue ("utm_medium").data (parseQsl qs),
          firstValue ("utm_campaign").data (parseQsl qs))) ∧
    parse_traffic_from_args
        [("utm:utm_source=insta&utm_medium=story&utm_campaign=launch1").data] =
      (some ("insta").data, some ("insta").data, some ("story").data,
        some ("launch1").data) ∧
    parse_traffic_from_args [("utm:junk&zz=1&utm_medium=story&k=").data] =
      (some ("utm").data, none, some ("story").data, none) := by
  refine ⟨fun qs => ?_, by decide, by decide⟩
  have h4 : ("utm:").data.length = 4 := rfl
  have htake : (("utm:").data ++ qs).take 4 = ("utm:").data := by
    rw [← h4]
    exact List.take_left ("utm:").data qs
  have hdrop : (("utm:").data ++ qs).drop 4 = qs := by
    rw [← h4]
    exact List.drop_left ("utm:").data qs
  simp [parse_traffic_from_args, htake, hdrop]

/-- C9. For every ledger state, `get_stats` reports `total_users` equal to
the number of records, `gifted_users` equal to the number of records whose
reward flag is true, and a per-source breakdown of at most 10 entries,
ordered by descending group total, in which every entry carries a source key
actually occurring in the ledger (null coalesced to "unknown") together with
that group's record count and its rewarded count. -/
theorem get_stats_shape (db : DB) :
    (get_stats db).total_users = db.length ∧
    (get_stats db).gifted_users = db.countP (fun r => r.is_gift_given) ∧
    (get_stats db).sources.length ≤ 10 ∧
    List.Pairwise srcGE (get_stats db).sources ∧
    ((get_stats db).sources.all (fun x =>
      (x.2.1 == db.countP (fun r => srcKey r == x.1)) &&
      (x.2.2 == db.countP (fun r => srcKey r == x.1 && r.is_gift_given)) &&
      decide (x.1 ∈ db.map srcKey))) = true := by
  refine ⟨rfl, rfl, ?_, ?_, ?_⟩
  · exact List.length_take_le 10 _
  · exact List.Pairwise.sublist (List.take_sublist 10 _)
      (List.sorted_insertionSort srcGE _)
  · rw [List.all_eq_true]
    intro x hx
    simp only [get_stats] at hx
    have hx1 : x ∈ List.insertionSort srcGE
        (((db.map srcKey).dedup).map (fun k =>
          (k, db.countP (fun r => srcKey r == k),
              db.countP (fun r => srcKey r == k && r.is_gift_given)))) :=
      (List.take_sublist 10 _).subset hx
    have hx2 := (List.perm_insertionSort srcGE _).mem_iff.mp hx1
    rw [List.mem_map] at hx2
    obtain ⟨k, hk, rfl⟩ := hx2
    have hkmem : k ∈ db.map srcKey := List.mem_dedup.mp hk
    simp [hkmem]

end Theorems

end GiftBot
